import Mathlib

/-!
Verification development for the SIP instrument-data import module
(`pygimli/physics/SIP/importData.py`).

The Python functions `load`, `readTXTSpectrum`, `readFuchs3File`,
`readRadicSIPFuchs`, `toTime` and `readSIP256file` are shallowly embedded
as executable Lean functions over the list of decoded lines of the input
file (each line keeps its trailing newline, as produced by `readlines` or
file iteration).  Fallible Python code is modelled with `Except PyErr`;
CPython exceptions such as NameError, ValueError, IndexError, KeyError and
TypeError appear as explicit error constructors.  Machine floats are
modelled as exact rationals extended with nan and signed infinities;
rounding of float arithmetic is not modelled (no verified claim depends on
it), and `np.pi` is embedded as the exact rational value of the IEEE-754
double nearest pi.
-/

set_option synthInstance.maxSize 1000

namespace SIPData

/-! ## Python string primitives -/

/-- Whitespace characters recognised by Python `str.split()` / `str.strip()`
(the ASCII subset, which covers the device files). -/
def isPySpace (c : Char) : Bool :=
  c = ' ' || c = '\t' || c = '\n' || c = '\r' || c = '\x0b' || c = '\x0c'

/-- Helper for `pySplit`: accumulates the current token (reversed). -/
def pySplitGo : List Char → List Char → List (List Char)
  | [], cur => if cur.isEmpty then [] else [cur.reverse]
  | c :: rest, cur =>
    if isPySpace c then
      if cur.isEmpty then pySplitGo rest [] else cur.reverse :: pySplitGo rest []
    else pySplitGo rest (c :: cur)

/-- Python `s.split()`: split on runs of whitespace, dropping empty tokens. -/
def pySplit (s : String) : List String :=
  (pySplitGo s.data []).map String.mk

/-- Helper for `pySplitOn`: split on a single separator character, keeping
empty tokens, as Python `s.split(sep)` does. -/
def pySplitOnGo (sep : Char) : List Char → List Char → List (List Char)
  | [], cur => [cur.reverse]
  | c :: rest, cur =>
    if c = sep then cur.reverse :: pySplitOnGo sep rest []
    else pySplitOnGo sep rest (c :: cur)

/-- Python `s.split(sep)` for a one-character separator. -/
def pySplitOn (sep : Char) (s : String) : List String :=
  (pySplitOnGo sep s.data []).map String.mk

/-- Substring containment on character lists (Python `in`). -/
def listContainsSub (pat l : List Char) : Bool :=
  l.tails.any (fun t => pat.isPrefixOf t)

/-- Python `pat in s` (substring containment). -/
def strContainsSub (pat s : String) : Bool :=
  listContainsSub pat.data s.data

/-- Python `s.find(pat) == 0`, i.e. `s` starts with `pat`. -/
def strStarts (pat s : String) : Bool :=
  pat.data.isPrefixOf s.data

/-- Python `s.endswith(pat)`. -/
def strEnds (pat s : String) : Bool :=
  pat.data.isSuffixOf s.data

/-- Python `s.replace(old, new)` on character lists: non-overlapping,
left-to-right replacement of every occurrence of the nonempty pattern
`p :: ps`.  Fuel-based recursion (every step consumes at least one input
character, so `l.length` fuel always suffices); the fuel-exhausted case is
unreachable and returns the remaining input unchanged. -/
def replaceSubGo (p : Char) (ps repl : List Char) : ℕ → List Char → List Char
  | 0, l => l
  | _ + 1, [] => []
  | fuel + 1, c :: rest =>
    if (p :: ps).isPrefixOf (c :: rest) then
      repl ++ replaceSubGo p ps repl fuel (rest.drop ps.length)
    else
      c :: replaceSubGo p ps repl fuel rest

/-- Python `s.replace(old, new)` for a nonempty `old`. -/
def strReplace (old new s : String) : String :=
  match old.data with
  | [] => s
  | p :: ps => String.mk (replaceSubGo p ps new.data s.data.length s.data)

/-- Index of the last occurrence of `c` in `l` (Python `rfind` for a single
character), or `none` when absent. -/
def rfindIdx (c : Char) (l : List Char) : Option Nat :=
  match l.reverse.findIdx? (fun d => d = c) with
  | none => none
  | some i => some (l.length - 1 - i)

/-- Python `s.lower()` (ASCII; the device file names are ASCII). -/
def strLower (s : String) : String :=
  String.mk (s.data.map Char.toLower)

/-- Strip Python whitespace from both ends of a character list
(Python `str.strip()` as applied inside `int()` / `float()`). -/
def stripWs (l : List Char) : List Char :=
  ((l.dropWhile isPySpace).reverse.dropWhile isPySpace).reverse

/-- Python `s.rstrip(chars)` for the character set `\r\n`. -/
def rstripCRLF (s : String) : String :=
  String.mk ((s.data.reverse.dropWhile (fun c => c = '\r' || c = '\n')).reverse)

/-! ## Python numbers

Machine floats are modelled as exact rationals plus `nan` and the two
infinities.  Rounding of float arithmetic is not modelled; no verified
claim depends on a rounded value. -/

/-- Model of a CPython float value. -/
inductive PyFloat where
  | fin (q : ℚ)
  | nan
  | inf
  | ninf
deriving DecidableEq, Repr

/-- `np.isfinite`. -/
def pyIsFinite : PyFloat → Bool
  | .fin _ => true
  | _ => false

/-- Unary minus on floats. -/
def pyNeg : PyFloat → PyFloat
  | .fin q => .fin (-q)
  | .nan => .nan
  | .inf => .ninf
  | .ninf => .inf

/-- Exact rational multiplication, written through `mkRat` on the
numerator/denominator representation (definitionally equal in value to
`a * b`; this form evaluates by kernel reduction). -/
def qMul (a b : ℚ) : ℚ := mkRat (a.num * b.num) (a.den * b.den)

/-- Exact rational division through `mkRat` (value of `a / b` for
`b ≠ 0`; the sign of `b` is moved into the numerator since `mkRat` takes a
natural denominator). -/
def qDiv (a b : ℚ) : ℚ :=
  if 0 ≤ b.num then mkRat (a.num * (b.den : ℤ)) (a.den * b.num.toNat)
  else mkRat (-(a.num * (b.den : ℤ))) (a.den * (-b.num).toNat)

/-- Float multiplication (IEEE special-value rules; signed zeros are not
distinguished). -/
def pyMul : PyFloat → PyFloat → PyFloat
  | .nan, _ => .nan
  | _, .nan => .nan
  | .fin a, .fin b => .fin (qMul a b)
  | .fin a, .inf => if 0 < a then .inf else if a < 0 then .ninf else .nan
  | .fin a, .ninf => if 0 < a then .ninf else if a < 0 then .inf else .nan
  | .inf, .fin b => if 0 < b then .inf else if b < 0 then .ninf else .nan
  | .ninf, .fin b => if 0 < b then .ninf else if b < 0 then .inf else .nan
  | .inf, .inf => .inf
  | .inf, .ninf => .ninf
  | .ninf, .inf => .ninf
  | .ninf, .ninf => .inf

/-- Float division as performed by a numpy array quotient: division by zero
produces an infinity (or nan for zero over zero) together with a runtime
warning, not an exception.  Signed zeros are not distinguished. -/
def pyDiv : PyFloat → PyFloat → PyFloat
  | .nan, _ => .nan
  | _, .nan => .nan
  | .fin a, .fin b =>
    if b = 0 then (if a = 0 then .nan else if 0 < a then .inf else .ninf)
    else .fin (qDiv a b)
  | .fin _, .inf => .fin 0
  | .fin _, .ninf => .fin 0
  | .inf, .fin b => if b < 0 then .ninf else .inf
  | .ninf, .fin b => if b < 0 then .inf else .ninf
  | .inf, .inf => .nan
  | .inf, .ninf => .nan
  | .ninf, .inf => .nan
  | .ninf, .ninf => .nan

/-- The exact rational value of the IEEE-754 double `np.pi`
(3.141592653589793115997963...). -/
def npPi : ℚ := mkRat 884279719003555 281474976710656

/-- Numeric value of a list of decimal digit characters. -/
def digitsVal (l : List Char) : ℕ :=
  l.foldl (fun acc c => 10 * acc + (c.toNat - '0'.toNat)) 0

/-- `l` is a nonempty list of decimal digits. -/
def allDigits (l : List Char) : Bool :=
  !l.isEmpty && l.all Char.isDigit

/-- Python `int(s)` for a string argument: strip whitespace, optional sign,
one or more decimal digits.  (PEP-515 underscore separators and non-ASCII
digits are not modelled; the device files never contain them.) -/
def pyIntParse (s : String) : Option ℤ :=
  match stripWs s.data with
  | '+' :: rest => if allDigits rest then some (digitsVal rest : ℤ) else none
  | '-' :: rest => if allDigits rest then some (-(digitsVal rest : ℤ)) else none
  | rest => if allDigits rest then some (digitsVal rest : ℤ) else none

/-- Mantissa of a float literal: `digits`, `digits.digits`, `digits.` or
`.digits` with at least one digit in total.  Returns its rational value. -/
def parseMantissa (l : List Char) : Option ℚ :=
  match l.splitOn '.' with
  | [ip] => if allDigits ip then some ((digitsVal ip : ℤ) : ℚ) else none
  | [ip, fp] =>
    if (ip.all Char.isDigit && fp.all Char.isDigit) && !(ip.isEmpty && fp.isEmpty) then
      some (mkRat (digitsVal ip * 10 ^ fp.length + digitsVal fp : ℕ) (10 ^ fp.length))
    else none
  | _ => none

/-- Exponent part of a float literal (after `e`/`E`): optional sign and
one or more digits. -/
def parseExponent (l : List Char) : Option ℤ :=
  match l with
  | '+' :: rest => if allDigits rest then some (digitsVal rest : ℤ) else none
  | '-' :: rest => if allDigits rest then some (-(digitsVal rest : ℤ)) else none
  | rest => if allDigits rest then some (digitsVal rest : ℤ) else none

/-- Scale a rational by a power of ten (the exponent of a float literal). -/
def scalePow10 (q : ℚ) (e : ℤ) : ℚ :=
  if 0 ≤ e then mkRat (q.num * (10 : ℤ) ^ e.toNat) q.den
  else mkRat q.num (q.den * 10 ^ (-e).toNat)

/-- Unsigned body of Python `float(s)`: `inf`, `infinity`, `nan`
(case-insensitive) or a decimal literal with optional exponent. -/
def pyFloatBody (l : List Char) : Option PyFloat :=
  let low := l.map Char.toLower
  if low = "inf".data || low = "infinity".data then some .inf
  else if low = "nan".data then some .nan
  else
    match low.splitOn 'e' with
    | [m] => (parseMantissa m).map .fin
    | [m, e] =>
      match parseMantissa m, parseExponent e with
      | some q, some ex => some (.fin (scalePow10 q ex))
      | _, _ => none
    | _ => none

/-- Python `float(s)` for a string argument: strip whitespace, optional
sign, then `pyFloatBody`.  `-nan` is nan; `-inf` is negative infinity. -/
def pyFloatParse (s : String) : Option PyFloat :=
  match stripWs s.data with
  | '+' :: rest => pyFloatBody rest
  | '-' :: rest => (pyFloatBody rest).map pyNeg
  | rest => pyFloatBody rest

/-! ## Exceptions -/

/-- CPython exceptions raised (or modelled) by the import module.
`unsupportedFormat` models the `raise Exception("Don't know how to read
data.")` in `load`; `nonTermination` models a `while True` loop that can
never exit because `readline` keeps returning the empty string at EOF. -/
inductive PyErr where
  | nameError
  | typeError
  | valueError
  | indexError
  | keyError
  | attributeError
  | unsupportedFormat
  | nonTermination
deriving DecidableEq, Repr

deriving instance DecidableEq for Except

/-- Python list indexing `l[i]` (IndexError when out of range). -/
def listGetE (l : List α) (i : ℕ) : Except PyErr α :=
  match l.get? i with
  | some a => .ok a
  | none => .error .indexError

/-- Python `int(s)` raising ValueError on failure. -/
def pyIntE (s : String) : Except PyErr ℤ :=
  match pyIntParse s with
  | some i => .ok i
  | none => .error .valueError

/-- Python `float(s)` raising ValueError on failure. -/
def pyFloatE (s : String) : Except PyErr PyFloat :=
  match pyFloatParse s with
  | some f => .ok f
  | none => .error .valueError

/-- `np.array(strs, dtype=float)`: every token must parse as a float. -/
def parseFloats : List String → Except PyErr (List PyFloat)
  | [] => .ok []
  | s :: rest =>
    match pyFloatParse s with
    | none => .error .valueError
    | some f =>
      match parseFloats rest with
      | .error e => .error e
      | .ok fs => .ok (f :: fs)

/-! ## Header mapping

A Python dict from token strings to scalar or array values, modelled as an
insertion-ordered association list with update-in-place semantics. -/

/-- A header value: scalar int, scalar float, a list of numeric rows still
being collected inside a `[Begin X]` block, or the numpy array it becomes
at `[End X]`.  `np.array` of a scalar (a 0-d array) is modelled as the
scalar itself. -/
inductive HVal where
  | intv (i : ℤ)
  | floatv (f : PyFloat)
  | rows (rs : List (List PyFloat))
  | arr (rs : List (List PyFloat))
deriving DecidableEq, Repr

/-- The header mapping. -/
abbrev Header := List (String × HVal)

/-- Python dict lookup. -/
def dictGet (k : String) : Header → Option HVal
  | [] => none
  | (k', v) :: rest => if k' = k then some v else dictGet k rest

/-- Python dict assignment `h[k] = v`: updates in place, or appends
preserving insertion order. -/
def dictSet (k : String) (v : HVal) : Header → Header
  | [] => [(k, v)]
  | (k', v') :: rest => if k' = k then (k, v) :: rest else (k', v') :: dictSet k v rest

/-! ## `toTime` (lines 245-254) -/

/-- Gregorian leap year. -/
def isLeap (y : ℤ) : Bool :=
  y % 4 = 0 && (y % 100 ≠ 0 || y % 400 = 0)

/-- Number of days in a month (`datetime` validation). -/
def daysInMonth (y m : ℤ) : ℤ :=
  if m = 2 then (if isLeap y then 29 else 28)
  else if m = 4 || m = 6 || m = 9 || m = 11 then 30
  else 31

/-- Days from 1970-01-01 to the given civil date (valid dates with year at
least 1, so all intermediate quantities are nonnegative). -/
def daysFromCivil (y m d : ℤ) : ℤ :=
  let y' := if m ≤ 2 then y - 1 else y
  let era := y' / 400
  let yoe := y' - era * 400
  let mp := (m + 9) % 12
  let doy := (153 * mp + 2) / 5 + d - 1
  let doe := yoe * 365 + yoe / 4 - yoe / 100 + doy
  era * 146097 + doe - 719468

/-- Argument validation of `datetime.datetime`. -/
def datetimeValid (y mo d h mi s : ℤ) : Bool :=
  1 ≤ y && y ≤ 9999 && 1 ≤ mo && mo ≤ 12 && 1 ≤ d && d ≤ daysInMonth y mo &&
  0 ≤ h && h < 24 && 0 ≤ mi && mi < 60 && 0 ≤ s && s < 60

/-- `[int(_t) for _t in parts]`: every component must parse. -/
def intList : List String → Except PyErr (List ℤ)
  | [] => .ok []
  | s :: rest =>
    match pyIntParse s with
    | none => .error .valueError
    | some i =>
      match intList rest with
      | .error e => .error e
      | .ok is => .ok (i :: is)

/-- `toTime(t, d)` (lines 245-254): split `h:m:s` and `d/m/y`, build a
datetime and return its timestamp.  Python interprets the datetime in the
local timezone of the machine; the embedding fixes UTC.  No verified claim
depends on the numeric value of a timestamp. -/
def toTime (t d : String) : Except PyErr ℚ :=
  match intList (pySplitOn ':' t) with
  | .error e => .error e
  | .ok tim =>
    match intList (pySplitOn '/' d) with
    | .error e => .error e
    | .ok day =>
      match listGetE day 2 with
      | .error e => .error e
      | .ok y =>
        match listGetE day 1 with
        | .error e => .error e
        | .ok mo =>
          match listGetE day 0 with
          | .error e => .error e
          | .ok dd =>
            match listGetE tim 0 with
            | .error e => .error e
            | .ok h =>
              match listGetE tim 1 with
              | .error e => .error e
              | .ok mi =>
                match listGetE tim 2 with
                | .error e => .error e
                | .ok s =>
                  if datetimeValid y mo dd h mi s then
                    .ok (((daysFromCivil y mo dd * 86400 + h * 3600 + mi * 60 + s : ℤ) : ℚ))
                  else .error .valueError

/-! ## `readTXTSpectrum` (lines 80-95) -/

/-- `line.replace(';', ' ')`. -/
def replaceSemis (s : String) : String :=
  String.mk (s.data.map (fun c => if c = ';' then ' ' else c))

/-- The `for line in lines[1:]` loop of `readTXTSpectrum`: rows with more
than 3 whitespace/semicolon-separated fields contribute columns 0, 1 and 3
(phase negated); the first shorter row stops the loop. -/
def txtGo : List String → List PyFloat → List PyFloat → List PyFloat →
    Except PyErr (List PyFloat × List PyFloat × List PyFloat)
  | [], f, amp, phi => .ok (f, amp, phi)
  | l :: rest, f, amp, phi =>
    let snums := pySplit (replaceSemis l)
    if 3 < snums.length then
      match listGetE snums 0 with
      | .error e => .error e
      | .ok s0 =>
        match pyFloatE s0 with
        | .error e => .error e
        | .ok v0 =>
          match listGetE snums 1 with
          | .error e => .error e
          | .ok s1 =>
            match pyFloatE s1 with
            | .error e => .error e
            | .ok v1 =>
              match listGetE snums 3 with
              | .error e => .error e
              | .ok s3 =>
                match pyFloatE s3 with
                | .error e => .error e
                | .ok v3 => txtGo rest (f ++ [v0]) (amp ++ [v1]) (phi ++ [pyNeg v3])
    else .ok (f, amp, phi)

/-- `readTXTSpectrum(filename)` over the lines of the file: skips the
header line, then runs the row loop. -/
def readTXTSpectrum (lines : List String) :
    Except PyErr (List PyFloat × List PyFloat × List PyFloat) :=
  txtGo (lines.drop 1) [] [] []

/-! ## `readFuchs3File` (lines 98-164) -/

/-- Parser state of the header phase of `readFuchs3File`. -/
structure F3State where
  dataAct : Bool
  activeBlock : String
  header : Header
  LINE : List String
deriving DecidableEq, Repr

/-- Result tuple of `readFuchs3File`. -/
abbrev F3Result := List PyFloat × List PyFloat × List PyFloat × Header

/-- `line.replace('\r\n', '\n')` (line 113). -/
def replaceCRLFs (s : String) : String :=
  strReplace "\r\n" "\n" s

/-- The token of a bracketed header line and the trailing value:
`token = line[1:line.rfind(']')]`, `value = line[line.rfind(']') + 1:]`.
When the line has no `]`, `rfind` returns -1 and the Python slices become
`line[1:-1]` and `line[0:]`. -/
def tokenValue (line : String) : String × String :=
  match rfindIdx ']' line.data with
  | some i => (String.mk ((line.data.drop 1).take (i - 1)), String.mk (line.data.drop (i + 1)))
  | none => (String.mk ((line.data.drop 1).dropLast), line)

/-- `token.replace(' ', '_')`. -/
def spacesToUnderscores (s : String) : String :=
  String.mk (s.data.map (fun c => if c = ' ' then '_' else c))

/-- Scalar header value in `readFuchs3File` (lines 150-154): float when the
value contains a dot, int otherwise. -/
def f3ParseVal (value : String) : Option HVal :=
  if strContainsSub "." value then (pyFloatParse value).map .floatv
  else (pyIntParse value).map .intv

/-- A scalar header entry in `readFuchs3File` (lines 148-159): on parse
failure the exception is swallowed and the entry is skipped. -/
def f3ScalarEntry (token value : String) (h : Header) : Header :=
  match f3ParseVal value with
  | some v => dictSet token v h
  | none => h

/-- `[End ...]` handling shared by both readers:
`header[activeBlock] = np.array(header[activeBlock])`, then the active
block is cleared.  A missing key (no active block) raises KeyError. -/
def headerEndBlock (activeBlock : String) (h : Header) : Except PyErr Header :=
  match dictGet activeBlock h with
  | some (.rows rs) => .ok (dictSet activeBlock (.arr rs) h)
  | some v => .ok (dictSet activeBlock v h)
  | none => .error .keyError

/-- A data row inside an active `[Begin]` block, shared by both readers:
`header[activeBlock].append(np.array(line.split(), dtype=float))`. -/
def headerBlockRow (line : String) (activeBlock : String) (h : Header) :
    Except PyErr Header :=
  match parseFloats (pySplit line) with
  | .error e => .error e
  | .ok nums =>
    match dictGet activeBlock h with
    | some (.rows rs) => .ok (dictSet activeBlock (.rows (rs ++ [nums])) h)
    | some _ => .error .attributeError
    | none => .error .keyError

/-- Header-phase handling of one line of `readFuchs3File` (lines 140-164),
after the `Current` check.  Never touches `dataAct`. -/
def f3HeaderLine (line : String) (s : F3State) : Except PyErr F3State :=
  if line.data.head? = some '[' then
    let tv := tokenValue line
    let token := spacesToUnderscores tv.1
    if token.data.take 3 = "End".data then
      match headerEndBlock s.activeBlock s.header with
      | .error e => .error e
      | .ok h => .ok { s with activeBlock := "", header := h }
    else if token.data.take 5 = "Begin".data then
      let ab := String.mk (token.data.drop 6)
      .ok { s with activeBlock := ab, header := dictSet ab (.rows []) s.header }
    else
      .ok { s with header := f3ScalarEntry token tv.2 s.header }
  else
    if s.activeBlock ≠ "" then
      match headerBlockRow line s.activeBlock s.header with
      | .error e => .error e
      | .ok h => .ok { s with header := h }
    else .ok s

/-- The data-extraction pass of `readFuchs3File` (lines 117-126): for every
buffered line with more than 12 whitespace-separated fields, parse column
11 as the frequency; when it is finite, also parse columns 12, 13 and 9
and append to all four accumulators. -/
def f3BuildGo : List String → List PyFloat → List PyFloat → List PyFloat → List PyFloat →
    Except PyErr (List PyFloat × List PyFloat × List PyFloat × List PyFloat)
  | [], f, amp, phi, kIn => .ok (f, amp, phi, kIn)
  | li :: rest, f, amp, phi, kIn =>
    let sline := pySplit li
    if 12 < sline.length then
      match listGetE sline 11 with
      | .error e => .error e
      | .ok s11 =>
        match pyFloatE s11 with
        | .error e => .error e
        | .ok fi =>
          if pyIsFinite fi then
            match listGetE sline 12 with
            | .error e => .error e
            | .ok s12 =>
              match pyFloatE s12 with
              | .error e => .error e
              | .ok a =>
                match listGetE sline 13 with
                | .error e => .error e
                | .ok s13 =>
                  match pyFloatE s13 with
                  | .error e => .error e
                  | .ok p =>
                    match listGetE sline 9 with
                    | .error e => .error e
                    | .ok s9 =>
                      match pyFloatE s9 with
                      | .error e => .error e
                      | .ok kk =>
                        f3BuildGo rest (f ++ [fi]) (amp ++ [a]) (phi ++ [p]) (kIn ++ [kk])
          else f3BuildGo rest f amp phi kIn
    else f3BuildGo rest f amp phi kIn

/-- The data-section return of `readFuchs3File` (lines 128-132):
`np.array(f), np.array(amp)/np.array(kIn) * k, np.array(phi), header`. -/
def f3Build (k : ℚ) (LINE : List String) (header : Header) : Except PyErr F3Result :=
  match f3BuildGo LINE [] [] [] [] with
  | .error e => .error e
  | .ok (f, amp, phi, kIn) =>
    .ok (f, (List.zipWith pyDiv amp kIn).map (fun x => pyMul x (.fin k)), phi, header)

/-- The `for line in f` loop of `readFuchs3File` (lines 112-164).  In data
mode every line is buffered; a buffered line shorter than 2 characters
produces the result.  Outside data mode, a nonempty line containing
`Current` switches to data mode and the same line still passes through the
header handling.  Falling off the end of the file returns Python `None`,
modelled as `.ok none`. -/
def fuchs3Loop (k : ℚ) : List String → F3State → Except PyErr (Option F3Result)
  | [], _ => .ok none
  | raw :: rest, st =>
    let line := replaceCRLFs raw
    if st.dataAct then
      if line.data.length < 2 then
        match f3Build k (st.LINE ++ [line]) st.header with
        | .error e => .error e
        | .ok res => .ok (some res)
      else fuchs3Loop k rest { st with LINE := st.LINE ++ [line] }
    else if line.data.length = 0 then fuchs3Loop k rest st
    else
      let st1 := if strContainsSub "Current" line then { st with dataAct := true } else st
      match f3HeaderLine line st1 with
      | .error e => .error e
      | .ok st2 => fuchs3Loop k rest st2

/-- `readFuchs3File(resfile, k=1.0, verbose=False)` over the decoded lines
of the file.  `.ok none` is Python returning `None` (end of file reached
while in data mode, or data mode never entered). -/
def readFuchs3File (k : ℚ) (lines : List String) : Except PyErr (Option F3Result) :=
  fuchs3Loop k lines ⟨false, "", [], []⟩

/-! ## `readRadicSIPFuchs` (lines 167-242) -/

/-- Result tuple of `readRadicSIPFuchs`: frequencies, apparent
resistivities, phases, resistivity errors, phase errors. -/
abbrev RadicResult :=
  List PyFloat × List PyFloat × List PyFloat × List PyFloat × List PyFloat

/-- `readRadicSIPFuchs(filename, readSecond=False, delLast=True)`.  Its
first statement (line 203) is `codecs.open(resfile, ...)`, but the
parameter is named `filename` and no global `resfile` exists, so every
call raises NameError before any of the file is read.  The rest of the
body is modelled separately as `readRadicSIPFuchsBody`. -/
def readRadicSIPFuchs (_lines : List String) (_readSecond _delLast : Bool) :
    Except PyErr RadicResult :=
  .error .nameError

/-- Drop lines up to and including the first one containing `Freq`
(the `while True: line = f.readline()` scans of lines 211-219).  When no
such line exists, `readline` returns the empty string forever and the
Python loop never terminates; this is reported as `nonTermination`. -/
def dropToFreq : List String → Except PyErr (List String)
  | [] => .error .nonTermination
  | l :: rest => if strContainsSub "Freq" l then .ok rest else dropToFreq rest

/-- The tab-separated row loop of `readRadicSIPFuchs` (lines 221-231):
columns 0-4 are frequency, resistivity, phase (negated and converted to
radians), resistivity error, phase error (converted to radians); the first
row with fewer than 5 tab-separated fields stops the loop, and end of file
stops it as well (`readline` returns the empty string, which splits into a
single field). -/
def radicRows : List String →
    List PyFloat → List PyFloat → List PyFloat → List PyFloat → List PyFloat →
    Except PyErr RadicResult
  | [], fr, rhoa, phi, drhoa, dphi => .ok (fr, rhoa, phi, drhoa, dphi)
  | l :: rest, fr, rhoa, phi, drhoa, dphi =>
    let b := pySplitOn '\t' l
    if b.length < 5 then .ok (fr, rhoa, phi, drhoa, dphi)
    else
      match listGetE b 0 with
      | .error e => .error e
      | .ok s0 =>
        match pyFloatE s0 with
        | .error e => .error e
        | .ok v0 =>
          match listGetE b 1 with
          | .error e => .error e
          | .ok s1 =>
            match pyFloatE s1 with
            | .error e => .error e
            | .ok v1 =>
              match listGetE b 2 with
              | .error e => .error e
              | .ok s2 =>
                match pyFloatE s2 with
                | .error e => .error e
                | .ok v2 =>
                  match listGetE b 3 with
                  | .error e => .error e
                  | .ok s3 =>
                    match pyFloatE s3 with
                    | .error e => .error e
                    | .ok v3 =>
                      match listGetE b 4 with
                      | .error e => .error e
                      | .ok s4 =>
                        match pyFloatE s4 with
                        | .error e => .error e
                        | .ok v4 =>
                          radicRows rest (fr ++ [v0]) (rhoa ++ [v1])
                            (phi ++ [pyDiv (pyMul (pyNeg v2) (.fin npPi)) (.fin 180)])
                            (drhoa ++ [v3])
                            (dphi ++ [pyDiv (pyMul v4 (.fin npPi)) (.fin 180)])

/-- `lst.pop(0)` on all five arrays (lines 236-240): IndexError when
empty. -/
def radicDelFirst : RadicResult → Except PyErr RadicResult
  | ([], _, _, _, _) => .error .indexError
  | (fr, rhoa, phi, drhoa, dphi) =>
    .ok (fr.drop 1, rhoa.drop 1, phi.drop 1, drhoa.drop 1, dphi.drop 1)

/-- The body of `readRadicSIPFuchs` (lines 205-242) as it would execute on
the lines of the file named by its `filename` parameter, had line 203 not
referenced the undefined name `resfile`.  The first `readline` consumes
the first line; the scan then looks for a line containing `Freq`
(optionally a second one when `readSecond`), rows follow, and `delLast`
drops the first sample of each array. -/
def readRadicSIPFuchsBody (lines : List String) (readSecond delLast : Bool) :
    Except PyErr RadicResult :=
  match dropToFreq (lines.drop 1) with
  | .error e => .error e
  | .ok rest1 =>
    let rest2E := if readSecond then dropToFreq rest1 else .ok rest1
    match rest2E with
    | .error e => .error e
    | .ok rest2 =>
      match radicRows rest2 [] [] [] [] [] with
      | .error e => .error e
      | .ok res => if delLast then radicDelFirst res else .ok res

/-! ## `load` (lines 13-62) -/

/-- The dialect chosen by the `if/elif` chain of `load` (lines 37-60):
the first line is tested against the signatures in this fixed order, and
the extension fallback applies only when no signature matches. -/
inductive LoadBranch where
  | fuchs3
  | quad
  | sipFuchs
  | txt
  | unsupported
deriving DecidableEq, Repr

/-- Dialect detection of `load`: substring tests on the first line in the
source order, then the `.txt`/`.csv` extension fallback on the lowercased
file name. -/
def loadDialect (firstLine fnLow : String) : LoadBranch :=
  if strContainsSub "SIP Fuchs III" firstLine then .fuchs3
  else if strContainsSub "SIP-Quad" firstLine then .quad
  else if strContainsSub "SIP-Fuchs" firstLine then .sipFuchs
  else if strEnds ".txt" fnLow || strEnds ".csv" fnLow then .txt
  else .unsupported

/-- `load(fileName, verbose=False, **kwargs)` over the decoded lines of
the file, with the geometric factor `k` forwarded to `readFuchs3File`.
Branch behaviour:
* Fuchs III / Quad: `readFuchs3File`; returning `None` makes the tuple
  unpacking on line 40/47 raise TypeError; otherwise the phase array is
  scaled by `-np.pi/180`.
* SIP-Fuchs: line 53 calls `readRadicSIPFuchs(fileName, verbose=verbose,
  **kwargs)`, but that function has no `verbose` parameter, so the call
  raises TypeError.
* txt/csv fallback: line 57 reads the undefined name `filename` (the
  parameter is `fileName`), raising NameError.
* otherwise: `raise Exception("Don't know how to read data.")`. -/
def load (fileName : String) (lines : List String) (k : ℚ) :
    Except PyErr (List PyFloat × List PyFloat × List PyFloat) :=
  let firstLine := lines.head?.getD ""
  let fnLow := strLower fileName
  match loadDialect firstLine fnLow with
  | .fuchs3 =>
    match readFuchs3File k lines with
    | .error e => .error e
    | .ok none => .error .typeError
    | .ok (some (f, amp, phi, _)) =>
      .ok (f, amp, phi.map (fun p => pyMul p (pyDiv (pyNeg (.fin npPi)) (.fin 180))))
  | .quad =>
    match readFuchs3File k lines with
    | .error e => .error e
    | .ok none => .error .typeError
    | .ok (some (f, amp, phi, _)) =>
      .ok (f, amp, phi.map (fun p => pyMul p (pyDiv (pyNeg (.fin npPi)) (.fin 180))))
  | .sipFuchs => .error .typeError
  | .txt => .error .nameError
  | .unsupported => .error .unsupportedFormat

/-! ## `readSIP256file` (lines 257-384) -/

/-- One frequency sample: the first 8 columns of a data row as floats plus
the derived timestamp. -/
abbrev FreqRow := List PyFloat

/-- The matrix collected for one remote unit (`np.array(dFreq)`). -/
abbrev RUMatrix := List FreqRow

/-- The list of remote-unit matrices of one reading (`dReading`). -/
abbrev ReadingData := List RUMatrix

/-- Parser state of the header phase of `readSIP256file` (lines 289-333). -/
structure P1State where
  dataAct : Bool
  activeBlock : String
  header : Header
  LINE : List String
deriving DecidableEq, Repr

/-- Scalar header entry in `readSIP256file` (lines 315-329).  Unlike
`readFuchs3File`, a value without a dot that fails `int` parsing is stored
as `0` by the inner `except` (lines 321-325); only a float parse failure
(value contains a dot) reaches the outer `except` and skips the entry. -/
def sip256ScalarEntry (token value : String) (h : Header) : Header :=
  if strContainsSub "." value then
    match pyFloatParse value with
    | some f => dictSet token (.floatv f) h
    | none => h
  else
    match pyIntParse value with
    | some i => dictSet token (.intv i) h
    | none => dictSet token (.intv 0) h

/-- Header-phase handling of one line of `readSIP256file` (lines 289-333):
buffer lines once `dataAct` is set; recognise bracket tokens with the
early-256D `FrequencyParameter` renames and the `Messdaten` triggers;
otherwise collect block rows. -/
def sip256HeaderLine (line : String) (s : P1State) : Except PyErr P1State :=
  if s.dataAct then .ok { s with LINE := s.LINE ++ [line] }
  else if line.data.length = 0 then .ok s
  else if line.data.head? = some '[' then
    let tv := tokenValue line
    let token0 := spacesToUnderscores tv.1
    let token1 := strReplace "FrequencyParameterBegin" "Begin_FrequencyParameter" token0
    let token := strReplace "FrequencyParameterEnd" "End_FrequencyParameter" token1
    if token = "Messdaten_SIP256" then .ok { s with dataAct := true }
    else if strContainsSub "Messdaten" token then .ok { s with dataAct := true }
    else if token.data.take 3 = "End".data then
      match headerEndBlock s.activeBlock s.header with
      | .error e => .error e
      | .ok h => .ok { s with activeBlock := "", header := h }
    else if token.data.take 5 = "Begin".data then
      let ab := String.mk (token.data.drop 6)
      .ok { s with activeBlock := ab, header := dictSet ab (.rows []) s.header }
    else .ok { s with header := sip256ScalarEntry token tv.2 s.header }
  else if s.activeBlock ≠ "" then
    match headerBlockRow line s.activeBlock s.header with
    | .error e => .error e
    | .ok h => .ok { s with header := h }
  else .ok s

/-- The `for line in content` header loop of `readSIP256file`. -/
def sip256Phase1Go : List String → P1State → Except PyErr P1State
  | [], s => .ok s
  | l :: ls, s =>
    match sip256HeaderLine l s with
    | .error e => .error e
    | .ok s2 => sip256Phase1Go ls s2

/-- Header phase of `readSIP256file` from the initial state. -/
def sip256Phase1 (lines : List String) : Except PyErr P1State :=
  sip256Phase1Go lines ⟨false, "", [], []⟩

/-- State of the data loop of `readSIP256file` (lines 335-379).  `rdno`
is `none` while the Python local variable `rdno` is still unbound. -/
structure SIPState where
  DATA : List ReadingData
  dReading : ReadingData
  dFreq : RUMatrix
  AB : List (ℤ × ℤ)
  RU : List (List ℤ)
  ru : List ℤ
  rdno : Option ℤ
deriving DecidableEq, Repr

/-- The calibration-flag substitutions applied to every data-section line
(lines 338-339): `' nc '` to `' 0 '`, then `' c '` to `' 1 '`. -/
def sipReplaced (raw : String) : String :=
  strReplace " c " " 1 " (strReplace " nc " " 0 " raw)

/-- `re.sub('[0-9]-', '5 -', line)` (line 363): every digit immediately
followed by a minus sign is consumed together with the minus and replaced
by the three characters `5 -`; the matched digit is overwritten with the
literal digit 5. -/
def subDigitMinus : List Char → List Char
  | [] => []
  | [c] => [c]
  | c :: d :: rest =>
    if c.isDigit && d = '-' then '5' :: ' ' :: '-' :: subDigitMinus rest
    else c :: subDigitMinus (d :: rest)

/-- `re.search('[0-9]-', line)` (line 362). -/
def hasDigitMinus : List Char → Bool
  | [] => false
  | [_] => false
  | c :: d :: rest => (c.isDigit && d = '-') || hasDigitMinus (d :: rest)

/-- One iteration of the `for c in range(6)` repair loop (lines 365-376):
a field longer than 15 characters is split into two at a fixed offset from
the end (15 characters for field 0, otherwise 10); afterwards the field at
position `c` is replaced by `'1.0'` when it contains the letter `c`. -/
def repairStep (c : ℕ) (sl : List String) : Except PyErr (List String) :=
  match listGetE sl c with
  | .error e => .error e
  | .ok fld =>
    let sl1 :=
      if 15 < fld.data.length then
        let off := if c = 0 then 15 else 10
        sl.take c ++ [String.mk (fld.data.take (fld.data.length - off)),
                      String.mk (fld.data.drop (fld.data.length - off))] ++ sl.drop (c + 1)
      else sl
    match listGetE sl1 c with
    | .error e => .error e
    | .ok fld1 =>
      .ok (if strContainsSub "c" fld1 then sl1.set c "1.0" else sl1)

/-- The full `for c in range(6)` repair loop. -/
def repairFields (sl : List String) : Except PyErr (List String) :=
  match repairStep 0 sl with
  | .error e => .error e
  | .ok sl0 =>
    match repairStep 1 sl0 with
    | .error e => .error e
    | .ok sl1 =>
      match repairStep 2 sl1 with
      | .error e => .error e
      | .ok sl2 =>
        match repairStep 3 sl2 with
        | .error e => .error e
        | .ok sl3 =>
          match repairStep 4 sl3 with
          | .error e => .error e
          | .ok sl4 => repairStep 5 sl4

/-- Handling of a `Reading` marker line (lines 342-353): bind the reading
number, record the electrode pair for readings with positive number, flush
a pending remote-unit id list into `RU`, and for later readings flush a
nonempty `dReading` (with the current `dFreq` appended) into `DATA`. -/
def sipReading (sline : List String) (s : SIPState) : Except PyErr SIPState :=
  match listGetE sline 1 with
  | .error e => .error e
  | .ok t1 =>
    match pyIntE t1 with
    | .error e => .error e
    | .ok rd =>
      let s1E : Except PyErr SIPState :=
        if 0 < rd then
          match listGetE sline 4 with
          | .error e => .error e
          | .ok t4 =>
            match pyIntE t4 with
            | .error e => .error e
            | .ok a =>
              match listGetE sline 6 with
              | .error e => .error e
              | .ok t6 =>
                match pyIntE t6 with
                | .error e => .error e
                | .ok b => .ok { s with AB := s.AB ++ [(a, b)] }
        else .ok s
      match s1E with
      | .error e => .error e
      | .ok s1 =>
        let s2 := if s1.ru.isEmpty then s1
          else { s1 with RU := s1.RU ++ [s1.ru], ru := [] }
        let s3 := if 1 < rd && !s2.dReading.isEmpty then
            { s2 with DATA := s2.DATA ++ [s2.dReading ++ [s2.dFreq]],
                      dReading := [], dFreq := [] }
          else s2
        .ok { s3 with rdno := some rd }

/-- Handling of a `Remote Unit` marker line (lines 354-358): append the
unit id to the pending list and flush a nonempty `dFreq` into
`dReading`. -/
def sipRemote (sline : List String) (s : SIPState) : Except PyErr SIPState :=
  match listGetE sline 2 with
  | .error e => .error e
  | .ok t2 =>
    match pyIntE t2 with
    | .error e => .error e
    | .ok i =>
      let s1 := { s with ru := s.ru ++ [i] }
      .ok (if s1.dFreq.isEmpty then s1
           else { s1 with dReading := s1.dReading ++ [s1.dFreq], dFreq := [] })

/-- Handling of a data row (lines 362-379): optional digit-minus repair
and re-split, the `range(6)` field repair, then the first 8 fields plus
the timestamp derived from fields 9 and 10 are appended to `dFreq`. -/
def processDataRow (line : String) (sline0 : List String) (s : SIPState) :
    Except PyErr SIPState :=
  let sline1 := if hasDigitMinus line.data
    then pySplit (String.mk (subDigitMinus line.data)) else sline0
  match repairFields sline1 with
  | .error e => .error e
  | .ok sl =>
    match listGetE sl 9 with
    | .error e => .error e
    | .ok t9 =>
      match listGetE sl 10 with
      | .error e => .error e
      | .ok t10 =>
        match toTime t9 t10 with
        | .error e => .error e
        | .ok ts =>
          match parseFloats (sl.take 8) with
          | .error e => .error e
          | .ok vals => .ok { s with dFreq := s.dFreq ++ [vals ++ [PyFloat.fin ts]] }

/-- Dispatch on one data-section line (lines 337-379).  A non-marker line
with more than one field evaluates `rdno`; when that variable is still
unbound Python raises NameError. -/
def sipStep (s : SIPState) (raw : String) : Except PyErr SIPState :=
  let line := sipReplaced raw
  let sline := pySplit line
  if strStarts "Reading" line then sipReading sline s
  else if strStarts "Remote Unit" line then sipRemote sline s
  else if strContainsSub "Freq" line then .ok s
  else if 1 < sline.length then
    match s.rdno with
    | none => .error .nameError
    | some rd => if 0 < rd then processDataRow line sline s else .ok s
  else .ok s

/-- The `for line in LINE` data loop of `readSIP256file`. -/
def sipLoop : List String → SIPState → Except PyErr SIPState
  | [], s => .ok s
  | l :: ls, s =>
    match sipStep s l with
    | .error e => .error e
    | .ok s2 => sipLoop ls s2

/-- End-of-input handling (lines 381-384): `dFreq` is unconditionally
appended to `dReading` and `dReading` to `DATA`; the `pg.verbose` call on
line 383 then evaluates `rdno`, raising NameError when no `Reading` line
was ever processed.  The pending `ru` list is not flushed into `RU`. -/
def sip256Finalize (s : SIPState) :
    Except PyErr (List ReadingData × List (ℤ × ℤ) × List (List ℤ)) :=
  match s.rdno with
  | none => .error .nameError
  | some _ => .ok (s.DATA ++ [s.dReading ++ [s.dFreq]], s.AB, s.RU)

/-- The initial state of the data loop. -/
def sipInit : SIPState := ⟨[], [], [], [], [], [], none⟩

/-- `readSIP256file(resfile, verbose=False)` over the decoded lines of the
file: header phase, data loop, final flush. -/
def readSIP256file (lines : List String) :
    Except PyErr (Header × List ReadingData × List (ℤ × ℤ) × List (List ℤ)) :=
  match sip256Phase1 lines with
  | .error e => .error e
  | .ok st =>
    match sipLoop st.LINE sipInit with
    | .error e => .error e
    | .ok s =>
      match sip256Finalize s with
      | .error e => .error e
      | .ok out => .ok (st.header, out)

/-! ## Concrete input files used by the claims -/

/-- The 3-line `.txt` file of end-to-end scenario A. -/
def txtLines : List String := ["header\n", "1.0 2.0 x 3.0\n", "2.0 4.0 x -1.0\n"]

/-- A well-formed SIP-Fuchs single-spectrum file: preamble, `Freq` marker,
two tab-separated data rows, terminator row. -/
def radicLines : List String :=
  ["SIP-Fuchs rev 070903\n", "hdr\n", "Freq line\n",
   "10.0\t100.0\t3.0\t0.1\t0.2\n", "1.0\t200.0\t6.0\t0.3\t0.4\n", "end\n"]

/-- A SIP256 data section whose last marker is a `Remote Unit` line, so a
remote-unit id list is still pending at end of input. -/
def ruPendingLines : List String :=
  ["[Messdaten SIP256]\n",
   "Reading 1 # A 2 B 3\n",
   "Remote Unit 3 ok\n",
   "100.0 1.0 2.0 3.0 4.0 1 5.0 6.0 0 11:08:02 21/02/2019\n"]

/-- The frequency row produced by the data row of `ruPendingLines` and
`trailingLines`: the first 8 columns and the derived timestamp. -/
def freqRowA : FreqRow :=
  [.fin 100, .fin 1, .fin 2, .fin 3, .fin 4, .fin 1, .fin 5, .fin 6, .fin 1550747282]

/-- A SIP256 data section with two readings whose trailing frequency-sweep
block is not followed by any marker or blank line. -/
def trailingLines : List String :=
  ["[Messdaten SIP256]\n",
   "Reading 1 # A 2 B 3\n",
   "Remote Unit 1 ok\n",
   "100.0 1.0 2.0 3.0 4.0 1 5.0 6.0 0 11:08:02 21/02/2019\n",
   "Reading 2 # A 3 B 4\n",
   "Remote Unit 2 ok\n",
   "200.0 1.0 2.0 3.0 4.0 1 5.0 6.0 0 11:08:02 21/02/2019\n"]

/-- The second frequency row of `trailingLines`. -/
def freqRowB : FreqRow :=
  [.fin 200, .fin 1, .fin 2, .fin 3, .fin 4, .fin 1, .fin 5, .fin 6, .fin 1550747282]

/-- A SIP256 file whose data section has a data row but no `Reading`
line. -/
def noReadingLines : List String :=
  ["[Messdaten SIP256]\n",
   "100.0 1.0 2.0 3.0 4.0 1 5.0 6.0 0 11:08:02 21/02/2019\n"]

/-- A SIP Fuchs III file that reaches data mode and ends with a blank line,
so the reader returns a result. -/
def f3OkLines : List String :=
  ["SIP Fuchs III\n", "[Version] 3\n", "Current marker\n",
   "a b c d e f g h i 2.0 j 10.0 20.0 30.0\n", "\n"]

/-- A SIP Fuchs III file that reaches data mode but ends without any line
shorter than 2 characters. -/
def c9Lines : List String :=
  ["SIP Fuchs III\n", "Current marker\n", "1.0 2.0\n"]

/-! ## Claims -/

/-- C2: `load` on the 3-line `.txt` file of scenario A does not return the
described arrays: line 57 references the undefined name `filename` (the
parameter is `fileName`), so the fallback path raises NameError.  The rest
of the claim is faithful to `readTXTSpectrum`, which on those lines does
read columns 0, 1 and 3 and negate the phase, yielding `f=[1,2]`,
`amp=[2,4]`, `phi=[-3,1]`. -/
theorem c2_txt_fallback :
    load "spec.txt" txtLines 1 = .error .nameError ∧
    readTXTSpectrum txtLines =
      .ok ([.fin 1, .fin 2], [.fin 2, .fin 4], [.fin (-3), .fin 1]) :=
  ⟨by decide, by decide⟩

/-- C5: every call of `readRadicSIPFuchs` raises NameError (line 203 opens
`resfile`, but the parameter is `filename`), and the SIP-Fuchs branch of
`load` raises TypeError even earlier (line 53 passes a `verbose` keyword
the function does not accept).  The remaining body, run on the lines of
the file, does behave as the claim describes: it scans to the `Freq`
marker, reads tab-separated columns 0-4 until a row has fewer than 5
fields, and drops the first sample of each array under `delLast`.  The
rational literals are the exact values of `-6*pi/180` and `0.4*pi/180`
for the embedded double value `npPi`. -/
theorem c5_radic_never_runs :
    readRadicSIPFuchs radicLines false true = .error .nameError ∧
    load "f.res" ["SIP-Fuchs header\n"] 1 = .error .typeError ∧
    readRadicSIPFuchsBody radicLines false true =
      .ok ([.fin 1], [.fin 200], [.fin (mkRat (-176855943800711) 1688849860263936)],
           [.fin (mkRat 3 10)], [.fin (mkRat 176855943800711 25332747903959040)]) :=
  ⟨by decide, by decide, by decide⟩

/-- C6 counterexample: the digit-minus repair does not leave the digit
unchanged.  On `0.123-4.5` the claim predicts `0.123 -4.5`; the code
(`re.sub('[0-9]-', '5 -', line)`) produces `0.125 -4.5`, overwriting the
digit 3 with the literal digit 5. -/
theorem c6_counterexample :
    String.mk (subDigitMinus "0.123-4.5".data) = "0.125 -4.5" ∧
    ("0.125 -4.5" : String) ≠ "0.123 -4.5" :=
  ⟨by decide, by decide⟩

/-- C7 counterexample: a second field of length 11 exceeds 10 characters,
so the claim predicts it is split; the code splits only fields longer than
15 characters and leaves the row unchanged. -/
theorem c7_counterexample :
    repairFields ["1.0", "12345678901", "2.0", "3.0", "4.0", "5.0"] =
      .ok ["1.0", "12345678901", "2.0", "3.0", "4.0", "5.0"] ∧
    10 < "12345678901".data.length :=
  ⟨by decide, by decide⟩

/-- C8 counterexample: in `readSIP256file` a bracketed entry whose value
has no dot and fails int parsing is not skipped: the inner `except` binds
`num = 0` and the entry is stored.  Processing `[Foo] abc` from the empty
header yields the entry `Foo = 0`. -/
theorem c8_counterexample :
    sip256HeaderLine "[Foo] abc\n" ⟨false, "", [], []⟩ =
      .ok ⟨false, "", [("Foo", .intv 0)], []⟩ :=
  by decide

/-- C4 counterexample: at end of input the pending remote-unit id list is
not flushed into RU.  In `ruPendingLines` the marker `Remote Unit 3`
follows the last `Reading`, so under the claim RU would contain `[3]`; the
actual run returns `RU = []` (the pending list is dropped), while the
trailing frequency block does appear in DATA. -/
theorem c4_counterexample :
    readSIP256file ruPendingLines =
      .ok ([], [[[freqRowA]]], [(2, 3)], ([] : List (List ℤ))) ∧
    strStarts "Remote Unit" (sipReplaced "Remote Unit 3 ok\n") = true :=
  ⟨by decide, by decide⟩


/-- C3: dialect selection in `load` tests the first line against
`SIP Fuchs III`, `SIP-Quad`, `SIP-Fuchs` in that fixed order, the earliest
matching signature wins, and when no signature matches and the lowercased
file name ends in neither `.txt` nor `.csv`, `load` raises the
unsupported-format exception of line 60. -/
theorem c3_dialect_order :
    (∀ firstLine fnLow, strContainsSub "SIP Fuchs III" firstLine = true →
      loadDialect firstLine fnLow = .fuchs3) ∧
    (∀ firstLine fnLow, strContainsSub "SIP Fuchs III" firstLine = false →
      strContainsSub "SIP-Quad" firstLine = true →
      loadDialect firstLine fnLow = .quad) ∧
    (∀ firstLine fnLow, strContainsSub "SIP Fuchs III" firstLine = false →
      strContainsSub "SIP-Quad" firstLine = false →
      strContainsSub "SIP-Fuchs" firstLine = true →
      loadDialect firstLine fnLow = .sipFuchs) ∧
    (∀ fileName lines (k : ℚ),
      strContainsSub "SIP Fuchs III" (lines.head?.getD "") = false →
      strContainsSub "SIP-Quad" (lines.head?.getD "") = false →
      strContainsSub "SIP-Fuchs" (lines.head?.getD "") = false →
      strEnds ".txt" (strLower fileName) = false →
      strEnds ".csv" (strLower fileName) = false →
      load fileName lines k = .error .unsupportedFormat) := by
  refine ⟨?_, ?_, ?_, ?_⟩
  · intro fl fn h
    simp [loadDialect, h]
  · intro fl fn h1 h2
    simp [loadDialect, h1, h2]
  · intro fl fn h1 h2 h3
    simp [loadDialect, h1, h2, h3]
  · intro fileName lines k h1 h2 h3 h4 h5
    simp [load, loadDialect, h1, h2, h3, h4, h5]

/-- C3 witness: the order-sensitivity conjuncts at first lines holding
several signatures at once, and the error conjunct at a plain text file
with a `.res` name. -/
theorem c3_dialect_order_wit :
    loadDialect "SIP Fuchs III SIP-Quad SIP-Fuchs" "a.res" = .fuchs3 ∧
    loadDialect "x SIP-Quad SIP-Fuchs" "a.res" = .quad ∧
    loadDialect "x SIP-Fuchs y" "a.res" = .sipFuchs ∧
    load "data.res" ["hello\n"] 1 = .error .unsupportedFormat :=
  ⟨c3_dialect_order.1 _ _ (by decide),
   c3_dialect_order.2.1 _ _ (by decide) (by decide),
   c3_dialect_order.2.2.1 _ _ (by decide) (by decide) (by decide),
   c3_dialect_order.2.2.2 "data.res" ["hello\n"] 1 (by decide) (by decide)
     (by decide) (by decide) (by decide)⟩

/-- C8 (amended): a bracketed entry whose value fails numeric parsing is
skipped in `readFuchs3File`; in `readSIP256file` it is skipped only when
the value contains a dot (float parse failure), while a dot-free value
that fails int parsing is stored as the scalar 0. -/
theorem c8_header_parse_failure :
    (∀ t v h, f3ParseVal v = none → f3ScalarEntry t v h = h) ∧
    (∀ t v h, strContainsSub "." v = true → pyFloatParse v = none →
      sip256ScalarEntry t v h = h) ∧
    (∀ t v h, strContainsSub "." v = false → pyIntParse v = none →
      sip256ScalarEntry t v h = dictSet t (.intv 0) h) := by
  refine ⟨?_, ?_, ?_⟩
  · intro t v h hp
    simp [f3ScalarEntry, hp]
  · intro t v h hc hp
    simp [sip256ScalarEntry, hc, hp]
  · intro t v h hc hp
    simp [sip256ScalarEntry, hc, hp]

/-- C8 witness: a non-numeric dot-free value is skipped by the Fuchs III
reader, a malformed dotted value is skipped by the SIP256 reader, and a
non-numeric dot-free value is stored as 0 by the SIP256 reader. -/
theorem c8_header_parse_failure_wit :
    f3ScalarEntry "Foo" " abc" [] = [] ∧
    sip256ScalarEntry "Bar" " a.b" [] = [] ∧
    sip256ScalarEntry "Foo" " abc" [] = [("Foo", .intv 0)] :=
  ⟨c8_header_parse_failure.1 "Foo" " abc" [] (by decide),
   c8_header_parse_failure.2.1 "Bar" " a.b" [] (by decide) (by decide),
   c8_header_parse_failure.2.2 "Foo" " abc" [] (by decide) (by decide)⟩

/-- C4 (amended): at end of input the pending frequency accumulator and
the pending reading are unconditionally appended into DATA whenever the
final flush succeeds (it requires `rdno` to be bound), so a trailing
frequency-sweep block is not dropped; the pending remote-unit id list is
left out of RU.  The concrete run `trailingLines` ends in a data row with
no terminating marker and that row appears in DATA, while the pending
remote-unit id list `[2]` does not appear in RU. -/
theorem c4_eof_flush :
    (∀ (s : SIPState) (rd : ℤ), s.rdno = some rd →
      sip256Finalize s = .ok (s.DATA ++ [s.dReading ++ [s.dFreq]], s.AB, s.RU)) ∧
    readSIP256file trailingLines =
      .ok ([], [[[freqRowA], [freqRowB]]], [(2, 3), (3, 4)], [[1]]) := by
  refine ⟨?_, ?_⟩
  · intro s rd h
    simp [sip256Finalize, h]
  · decide

/-- C4 witness: the final flush applied to a concrete state with a bound
reading number, an empty accumulator pair and a pending remote-unit id
list: DATA receives the (empty) trailing block, RU stays empty. -/
theorem c4_eof_flush_wit :
    sip256Finalize ⟨[], [], [], [], [], [3], some 1⟩ = .ok ([[[]]], [], []) :=
  c4_eof_flush.1 ⟨[], [], [], [], [], [3], some 1⟩ 1 rfl

/-- C6 (amended): the digit-minus repair of line 363 replaces each digit
immediately followed by a minus sign with the literal digit 5 and a space,
keeping the minus: before the first occurrence the line is unchanged, the
matched digit is overwritten with 5, and rewriting continues after the
minus sign. -/
theorem c6_sub_digit_minus :
    ∀ (pre suf : List Char) (d : Char), d.isDigit = true →
      hasDigitMinus pre = false →
      subDigitMinus (pre ++ d :: '-' :: suf) =
        pre ++ '5' :: ' ' :: '-' :: subDigitMinus suf := by
  intro pre
  induction pre with
  | nil =>
    intro suf d hd _
    simp [subDigitMinus, hd]
  | cons a pre2 ih =>
    intro suf d hd hpre
    have hdm : decide (d = '-') = false := by
      apply decide_eq_false
      intro hcontra
      rw [hcontra] at hd
      exact absurd hd (by decide)
    cases pre2 with
    | nil =>
      have hrec := ih suf d hd rfl
      simp only [List.nil_append] at hrec
      simp only [List.cons_append, List.nil_append, subDigitMinus, hdm, Bool.and_false,
        Bool.false_eq_true, if_false, hrec]
      simp [hd]
    | cons b pre3 =>
      have h2 := hpre
      simp only [hasDigitMinus, Bool.or_eq_false_iff] at h2
      have hrec := ih suf d hd h2.2
      simp only [List.cons_append] at hrec ⊢
      simp only [subDigitMinus, h2.1, Bool.false_eq_true, if_false, hrec]

/-- C6 witness: the general digit-minus lemma applied at a concrete row
fragment. -/
theorem c6_sub_digit_minus_wit :
    subDigitMinus ("RA 12.3-4.5".data) = "RA 12.5 -4.5".data := by
  have h := c6_sub_digit_minus "RA 12.".data "4.5".data '3' (by decide) (by decide)
  exact h.trans (by decide)

/-- Single-character substring containment is membership. -/
theorem listContainsSub_singleton (ch : Char) (l : List Char) :
    listContainsSub [ch] l = l.any (fun c => c = ch) := by
  induction l with
  | nil => rfl
  | cons c rest ih =>
    simp only [listContainsSub, List.tails_cons, List.any_cons] at *
    rw [← ih]
    congr 1
    rw [Bool.eq_iff_iff]
    simp only [beq_iff_eq, decide_eq_true_eq, List.isPrefixOf, Bool.and_true]
    constructor
    · intro h
      exact h.symm
    · intro h
      exact h.symm

/-- A field that does not contain the letter `c` keeps that property on a
`take` of its characters. -/
theorem strContainsSub_c_take (fld : String) (n : ℕ)
    (h : strContainsSub "c" fld = false) :
    strContainsSub "c" (String.mk (fld.data.take n)) = false := by
  have h1 : listContainsSub ['c'] fld.data = false := h
  rw [listContainsSub_singleton] at h1
  show listContainsSub ['c'] (fld.data.take n) = false
  rw [listContainsSub_singleton, List.any_eq_false]
  rw [List.any_eq_false] at h1
  intro x hx
  exact h1 x (List.take_subset n fld.data hx)

/-- C7 (amended): in the `range(6)` repair loop the split test is
`len(sline[c]) > 15` for every field; only the split offset depends on the
position (15 from the end for field 0, otherwise 10).  A field of length
at most 15 (even one longer than 10 characters at a position after the
first) is left alone, and a field longer than 15 characters is split at
the fixed offset.  In particular a 16-character numeric field is split
into two fields that both parse as floats, at position 0 as well as at a
later position. -/
theorem c7_split_threshold_15 :
    (∀ (sl : List String) (c : ℕ) (fld : String), sl.get? c = some fld →
      strContainsSub "c" fld = false →
      ((fld.data.length ≤ 15 → repairStep c sl = .ok sl) ∧
       (15 < fld.data.length →
         repairStep c sl = .ok (sl.take c ++
           [String.mk (fld.data.take (fld.data.length - (if c = 0 then 15 else 10))),
            String.mk (fld.data.drop (fld.data.length - (if c = 0 then 15 else 10)))] ++
           sl.drop (c + 1))))) ∧
    (repairStep 0 ["1234.56789012345"] = .ok ["1", "234.56789012345"] ∧
      (pyFloatParse "1").isSome = true ∧ (pyFloatParse "234.56789012345").isSome = true) ∧
    (repairStep 1 ["0", "1234567890123456"] = .ok ["0", "123456", "7890123456"] ∧
      (pyFloatParse "123456").isSome = true ∧ (pyFloatParse "7890123456").isSome = true) := by
  refine ⟨?_, ⟨by decide, by decide, by decide⟩, ⟨by decide, by decide, by decide⟩⟩
  intro sl c fld hget hc
  have hclt : c < sl.length := by
    rcases List.get?_eq_some.mp hget with ⟨hlt, _⟩
    exact hlt
  have hget' : sl[c]? = some fld := by
    rw [← List.get?_eq_getElem?]
    exact hget
  constructor
  · intro hlen
    have hnot : ¬ 15 < fld.length := Nat.not_lt.mpr hlen
    simp [repairStep, listGetE, hget', hc, hnot]
  · intro hlen
    have htklen : (sl.take c).length = c := by
      rw [List.length_take]
      omega
    have hget1 : (List.take c sl ++
        String.mk (List.take (fld.length - if c = 0 then 15 else 10) fld.data) ::
        String.mk (List.drop (fld.length - if c = 0 then 15 else 10) fld.data) ::
        List.drop (c + 1) sl)[c]? =
        some (String.mk (List.take (fld.length - if c = 0 then 15 else 10) fld.data)) := by
      rw [List.getElem?_append_right htklen.le]
      rw [htklen]
      simp
    have hlen' : 15 < fld.length := hlen
    have hc1 : strContainsSub "c"
        (String.mk (List.take (fld.length - if c = 0 then 15 else 10) fld.data)) = false :=
      strContainsSub_c_take fld _ hc
    simp [repairStep, listGetE, hget', hlen', hget1, hc1]

/-- C7 witness: the general repair-step lemma applied to a concrete row
whose second field has 11 characters (not split) and to one whose second
field has 16 characters (split 10 characters from the end). -/
theorem c7_split_threshold_15_wit :
    repairStep 1 ["a", "12345678901", "b"] = .ok ["a", "12345678901", "b"] ∧
    repairStep 1 ["a", "1234567890123456", "b"] =
      .ok (["a"] ++ ["123456", "7890123456"] ++ ["b"]) :=
  ⟨(c7_split_threshold_15.1 ["a", "12345678901", "b"] 1 "12345678901" rfl
      (by decide)).1 (by decide),
   (c7_split_threshold_15.1 ["a", "1234567890123456", "b"] 1 "1234567890123456" rfl
      (by decide)).2 (by decide)⟩

/-- Row loop of `readTXTSpectrum` preserves equal accumulator lengths. -/
theorem txtGo_lengths : ∀ (ls : List String) f a p f2 a2 p2,
    txtGo ls f a p = .ok (f2, a2, p2) →
    f.length = a.length → a.length = p.length →
    f2.length = a2.length ∧ a2.length = p2.length := by
  intro ls
  induction ls with
  | nil =>
    intro f a p f2 a2 p2 h hfa hap
    simp only [txtGo, Except.ok.injEq, Prod.mk.injEq] at h
    obtain ⟨h1, h2, h3⟩ := h
    subst h1; subst h2; subst h3
    exact ⟨hfa, hap⟩
  | cons l rest ih =>
    intro f a p f2 a2 p2 h hfa hap
    simp only [txtGo] at h
    split at h
    · repeat
        first
        | exact Except.noConfusion h
        | split at h
      exact ih _ _ _ _ _ _ h (by simp [hfa]) (by simp [hap])
    · simp only [Except.ok.injEq, Prod.mk.injEq] at h
      obtain ⟨h1, h2, h3⟩ := h
      subst h1; subst h2; subst h3
      exact ⟨hfa, hap⟩

/-- Data pass of `readFuchs3File` appends to all four accumulators
together, preserving equal lengths. -/
theorem f3BuildGo_lengths : ∀ (ls : List String) f a p kn f2 a2 p2 kn2,
    f3BuildGo ls f a p kn = .ok (f2, a2, p2, kn2) →
    f.length = a.length → a.length = p.length → p.length = kn.length →
    (f2.length = a2.length ∧ a2.length = p2.length ∧ p2.length = kn2.length) := by
  intro ls
  induction ls with
  | nil =>
    intro f a p kn f2 a2 p2 kn2 h hfa hap hpk
    simp only [f3BuildGo, Except.ok.injEq, Prod.mk.injEq] at h
    obtain ⟨h1, h2, h3, h4⟩ := h
    subst h1; subst h2; subst h3; subst h4
    exact ⟨hfa, hap, hpk⟩
  | cons l rest ih =>
    intro f a p kn f2 a2 p2 kn2 h hfa hap hpk
    simp only [f3BuildGo] at h
    split at h
    · repeat' split at h
      all_goals
        first
        | exact Except.noConfusion h
        | exact ih _ _ _ _ _ _ _ _ h hfa hap hpk
        | exact ih _ _ _ _ _ _ _ _ h (by simp [hfa]) (by simp [hap]) (by simp [hpk])
    · exact ih _ _ _ _ _ _ _ _ h hfa hap hpk

/-- The result assembly of `readFuchs3File` (division by the per-row
geometric factors and scaling by `k`) keeps the three returned sequences
of equal length. -/
theorem f3Build_lengths (k : ℚ) (LINE : List String) (header : Header)
    (res : F3Result) (h : f3Build k LINE header = .ok res) :
    res.1.length = res.2.1.length ∧ res.2.1.length = res.2.2.1.length := by
  unfold f3Build at h
  split at h
  · exact Except.noConfusion h
  · next f amp phi kIn heq =>
    obtain ⟨h1, h2, h3⟩ := f3BuildGo_lengths LINE [] [] [] [] f amp phi kIn heq rfl rfl rfl
    simp only [Except.ok.injEq] at h
    subst h
    refine ⟨?_, ?_⟩
    · simp only [List.length_map, List.length_zipWith]
      omega
    · simp only [List.length_map, List.length_zipWith]
      omega

/-- Any successful non-`None` return of `readFuchs3File` comes out of
`f3Build`, so its sequences have equal length. -/
theorem fuchs3Loop_ok_some (k : ℚ) : ∀ (ls : List String) (st : F3State) (res : F3Result),
    fuchs3Loop k ls st = .ok (some res) →
    res.1.length = res.2.1.length ∧ res.2.1.length = res.2.2.1.length := by
  intro ls
  induction ls with
  | nil =>
    intro st res h
    simp [fuchs3Loop] at h
  | cons raw rest ih =>
    intro st res h
    simp only [fuchs3Loop] at h
    split at h
    · split at h
      · split at h
        · exact Except.noConfusion h
        · next val heq =>
          simp only [Except.ok.injEq, Option.some.injEq] at h
          subst h
          exact f3Build_lengths _ _ _ _ heq
      · exact ih _ _ h
    · split at h
      · exact ih _ _ h
      · split at h
        · exact Except.noConfusion h
        · exact ih _ _ h

/-- C1: on every single-spectrum path that completes successfully the
returned frequency, amplitude and phase sequences have equal length: the
Fuchs III / Quad reader appends to all accumulators together and the
division by the per-row geometric factors preserves the common length;
the txt/csv reader appends to its three accumulators together; the
SIP-Fuchs reader never completes (it raises NameError on entry, claim C5),
so the property holds vacuously on that path. -/
theorem c1_equal_lengths :
    (∀ (k : ℚ) (lines : List String) (f amp phi : List PyFloat) (hdr : Header),
      readFuchs3File k lines = .ok (some (f, amp, phi, hdr)) →
      f.length = amp.length ∧ amp.length = phi.length) ∧
    (∀ (lines : List String) (f amp phi : List PyFloat),
      readTXTSpectrum lines = .ok (f, amp, phi) →
      f.length = amp.length ∧ amp.length = phi.length) ∧
    (∀ (lines : List String) (rs dl : Bool) (fr rhoa phi drhoa dphi : List PyFloat),
      readRadicSIPFuchs lines rs dl = .ok (fr, rhoa, phi, drhoa, dphi) →
      fr.length = rhoa.length ∧ rhoa.length = phi.length) := by
  refine ⟨?_, ?_, ?_⟩
  · intro k lines f amp phi hdr h
    exact fuchs3Loop_ok_some k lines ⟨false, "", [], []⟩ (f, amp, phi, hdr) h
  · intro lines f amp phi h
    exact txtGo_lengths _ _ _ _ _ _ _ h rfl rfl
  · intro lines rs dl fr rhoa phi drhoa dphi h
    simp [readRadicSIPFuchs] at h

/-- C1 witness: equal lengths on a concrete successful Fuchs III run and a
concrete successful txt run. -/
theorem c1_equal_lengths_wit :
    (([PyFloat.fin 10] : List PyFloat).length = ([PyFloat.fin 10] : List PyFloat).length ∧
     ([PyFloat.fin 10] : List PyFloat).length = ([PyFloat.fin 30] : List PyFloat).length) ∧
    (([PyFloat.fin 1, PyFloat.fin 2] : List PyFloat).length =
       ([PyFloat.fin 2, PyFloat.fin 4] : List PyFloat).length ∧
     ([PyFloat.fin 2, PyFloat.fin 4] : List PyFloat).length =
       ([PyFloat.fin (-3), PyFloat.fin 1] : List PyFloat).length) :=
  ⟨c1_equal_lengths.1 1 f3OkLines [.fin 10] [.fin 10] [.fin 30] [("Version", .intv 3)]
     (by decide),
   c1_equal_lengths.2.1 txtLines [.fin 1, .fin 2] [.fin 2, .fin 4] [.fin (-3), .fin 1]
     (by decide)⟩

/-- Every line of `ls` has at least 2 characters after the CRLF
normalisation (mirrors the buffered-line length test of line 116). -/
def noShortLines : List String → Bool
  | [] => true
  | l :: ls => if (replaceCRLFs l).data.length < 2 then false else noShortLines ls

/-- After the first line that would set `dataAct` (a nonempty line
containing `Current`, line 134), some later line is shorter than 2
characters.  `false` means the data section is never terminated. -/
def shortAfterCurrent : List String → Bool
  | [] => false
  | l :: ls =>
    if strContainsSub "Current" (replaceCRLFs l) then !(noShortLines ls)
    else shortAfterCurrent ls

/-- Some line of the file contains `Current` after CRLF normalisation. -/
def hasCurrentLine : List String → Bool
  | [] => false
  | l :: ls => strContainsSub "Current" (replaceCRLFs l) || hasCurrentLine ls

/-- The header handling of `readFuchs3File` never changes `dataAct`. -/
theorem f3HeaderLine_dataAct (line : String) (s s2 : F3State)
    (h : f3HeaderLine line s = .ok s2) : s2.dataAct = s.dataAct := by
  simp only [f3HeaderLine] at h
  repeat'
    first
    | exact Except.noConfusion h
    | (simp only [Except.ok.injEq] at h; subst h; rfl)
    | split at h

/-- In data mode, when no remaining line is shorter than 2 characters the
loop runs to end of file and Python returns `None`. -/
theorem fuchs3Loop_dataAct_none (k : ℚ) : ∀ (ls : List String) (st : F3State),
    st.dataAct = true → noShortLines ls = true → fuchs3Loop k ls st = .ok none := by
  intro ls
  induction ls with
  | nil =>
    intro st _ _
    rfl
  | cons raw rest ih =>
    intro st hact hns
    simp only [noShortLines] at hns
    split at hns
    · exact absurd hns (by simp)
    · next hlen =>
      simp only [fuchs3Loop, hact, if_true]
      rw [if_neg hlen]
      exact ih _ rfl hns

/-- Outside data mode, when no line after the `Current` trigger is shorter
than 2 characters, a successful run returns `None`. -/
theorem fuchs3Loop_no_short (k : ℚ) : ∀ (ls : List String) (st : F3State) (r : Option F3Result),
    st.dataAct = false → shortAfterCurrent ls = false →
    fuchs3Loop k ls st = .ok r → r = none := by
  intro ls
  induction ls with
  | nil =>
    intro st r _ _ h
    simp only [fuchs3Loop, Except.ok.injEq] at h
    exact h.symm
  | cons raw rest ih =>
    intro st r hact hsc h
    simp only [shortAfterCurrent] at hsc
    simp only [fuchs3Loop, hact] at h
    rw [if_neg (by simp)] at h
    split at h
    · -- length 0 line: cannot contain Current
      next hlen0 =>
      have hcur0 : strContainsSub "Current" (replaceCRLFs raw) = false := by
        have : (replaceCRLFs raw).data = [] := List.length_eq_zero.mp hlen0
        simp [strContainsSub, this, listContainsSub, List.isPrefixOf]
      rw [if_neg (by simp [hcur0])] at hsc
      exact ih _ _ hact hsc h
    · by_cases hcur : strContainsSub "Current" (replaceCRLFs raw) = true
      · rw [if_pos hcur] at hsc
        have hns : noShortLines rest = true := by
          simpa using hsc
        rw [if_pos hcur] at h
        split at h
        · exact Except.noConfusion h
        · next st2 heq =>
          have hact2 : st2.dataAct = true := by
            rw [f3HeaderLine_dataAct _ _ _ heq]
          rw [fuchs3Loop_dataAct_none k rest st2 hact2 hns] at h
          simp only [Except.ok.injEq] at h
          exact h.symm
      · have hcur' : strContainsSub "Current" (replaceCRLFs raw) = false := by
          simpa using hcur
        rw [if_neg (by simp [hcur'])] at hsc
        rw [if_neg (by simp [hcur'])] at h
        split at h
        · exact Except.noConfusion h
        · next st2 heq =>
          have hact2 : st2.dataAct = false := by
            rw [f3HeaderLine_dataAct _ _ _ heq, hact]
          exact ih _ _ hact2 hsc h

/-- C9: when the data section starts (a `Current` line is seen) but the
file ends without a buffered line shorter than 2 characters, a successful
run of `readFuchs3File` returns `None`, and the tuple unpacking in the
Fuchs III branch of `load` then raises TypeError. -/
theorem c9_ends_without_blank (lines : List String) (k : ℚ) (fn : String)
    (r : Option F3Result)
    (hok : readFuchs3File k lines = .ok r)
    (_hcur : hasCurrentLine lines = true)
    (hshort : shortAfterCurrent lines = false)
    (hfl : strContainsSub "SIP Fuchs III" (lines.head?.getD "") = true) :
    readFuchs3File k lines = .ok none ∧ load fn lines k = .error .typeError := by
  have hr : r = none := fuchs3Loop_no_short k lines ⟨false, "", [], []⟩ r rfl hshort hok
  subst hr
  refine ⟨hok, ?_⟩
  simp [load, loadDialect, hfl, hok]

/-- C9 witness: the concrete file `c9Lines` reaches data mode, has no
short line, and makes `load` fail with TypeError. -/
theorem c9_ends_without_blank_wit :
    readFuchs3File 1 c9Lines = .ok none ∧ load "f.res" c9Lines 1 = .error .typeError :=
  c9_ends_without_blank c9Lines 1 "f.res" none (by decide) (by decide) (by decide) (by decide)

/-- The data section contains a `Reading` marker line before any
non-marker line with more than one field (the branch conditions mirror
the dispatch of lines 342-361 on the calibration-replaced line). -/
def readingBeforeData : List String → Bool
  | [] => false
  | l :: ls =>
    if strStarts "Reading" (sipReplaced l) then true
    else if strStarts "Remote Unit" (sipReplaced l) then readingBeforeData ls
    else if strContainsSub "Freq" (sipReplaced l) then readingBeforeData ls
    else if 1 < (pySplit (sipReplaced l)).length then false
    else readingBeforeData ls

/-- A successful `Reading` step always binds the reading number. -/
theorem sipReading_rdno (sline : List String) (s s2 : SIPState)
    (h : sipReading sline s = .ok s2) : ∃ rd, s2.rdno = some rd := by
  simp only [sipReading] at h
  repeat'
    first
    | exact Except.noConfusion h
    | (simp only [Except.ok.injEq] at h; subst h; exact ⟨_, rfl⟩)
    | split at h

/-- A `Remote Unit` step leaves the reading number unchanged. -/
theorem sipRemote_rdno (sline : List String) (s s2 : SIPState)
    (h : sipRemote sline s = .ok s2) : s2.rdno = s.rdno := by
  simp only [sipRemote] at h
  repeat'
    first
    | exact Except.noConfusion h
    | (simp only [Except.ok.injEq] at h; subst h; rfl)
    | split at h

/-- A data-row step leaves the reading number unchanged. -/
theorem processDataRow_rdno (line : String) (sline : List String) (s s2 : SIPState)
    (h : processDataRow line sline s = .ok s2) : s2.rdno = s.rdno := by
  simp only [processDataRow] at h
  repeat'
    first
    | exact Except.noConfusion h
    | (simp only [Except.ok.injEq] at h; subst h; rfl)
    | split at h

/-- One data-loop step binds `rdno` exactly on `Reading` lines and leaves
it unchanged otherwise. -/
theorem sipStep_rdno (s : SIPState) (raw : String) (s2 : SIPState)
    (h : sipStep s raw = .ok s2) :
    (strStarts "Reading" (sipReplaced raw) = true ∧ ∃ rd, s2.rdno = some rd) ∨
    (strStarts "Reading" (sipReplaced raw) = false ∧ s2.rdno = s.rdno) := by
  simp only [sipStep] at h
  split at h
  · next hread =>
    exact Or.inl ⟨hread, sipReading_rdno _ _ _ h⟩
  · next hread =>
    have hread' : strStarts "Reading" (sipReplaced raw) = false := by
      simpa using hread
    refine Or.inr ⟨hread', ?_⟩
    split at h
    · exact sipRemote_rdno _ _ _ h
    · split at h
      · simp only [Except.ok.injEq] at h
        subst h
        rfl
      · split at h
        · split at h
          · exact Except.noConfusion h
          · split at h
            · exact processDataRow_rdno _ _ _ _ h
            · simp only [Except.ok.injEq] at h
              subst h
              rfl
        · simp only [Except.ok.injEq] at h
          subst h
          rfl

/-- With `rdno` unbound, a non-marker line with more than one field makes
the step raise NameError (line 361 evaluates the unbound variable). -/
theorem sipStep_none_data_fails (s : SIPState) (raw : String)
    (hn : s.rdno = none)
    (hread : strStarts "Reading" (sipReplaced raw) = false)
    (hrm : strStarts "Remote Unit" (sipReplaced raw) = false)
    (hfq : strContainsSub "Freq" (sipReplaced raw) = false)
    (hdl : 1 < (pySplit (sipReplaced raw)).length) :
    sipStep s raw = .error .nameError := by
  simp only [sipStep, hread, hrm, hfq, hn]
  rw [if_neg (by simp), if_neg (by simp), if_neg (by simp), if_pos hdl]

/-- Running the data loop from an unbound `rdno`: either a `Reading` line
precedes every multi-field data row, or `rdno` stays unbound and no such
row occurs. -/
theorem sipLoop_rdno_none : ∀ (ls : List String) (s s2 : SIPState),
    sipLoop ls s = .ok s2 → s.rdno = none →
    readingBeforeData ls = true ∨ (s2.rdno = none ∧ readingBeforeData ls = false) := by
  intro ls
  induction ls with
  | nil =>
    intro s s2 h hn
    right
    simp only [sipLoop, Except.ok.injEq] at h
    subst h
    exact ⟨hn, rfl⟩
  | cons l rest ih =>
    intro s s2 h hn
    simp only [sipLoop] at h
    split at h
    · exact Except.noConfusion h
    · next s1 heq =>
      rcases sipStep_rdno s l s1 heq with ⟨hread, _, _⟩ | ⟨hread, hsame⟩
      · left
        simp [readingBeforeData, hread]
      · have hn1 : s1.rdno = none := hsame.trans hn
        by_cases hrm : strStarts "Remote Unit" (sipReplaced l) = true
        · rcases ih s1 s2 h hn1 with hrb | ⟨h2, hrb⟩
          · left
            simp [readingBeforeData, hread, hrm, hrb]
          · right
            exact ⟨h2, by simp [readingBeforeData, hread, hrm, hrb]⟩
        · have hrm' : strStarts "Remote Unit" (sipReplaced l) = false := by simpa using hrm
          by_cases hfq : strContainsSub "Freq" (sipReplaced l) = true
          · rcases ih s1 s2 h hn1 with hrb | ⟨h2, hrb⟩
            · left
              simp [readingBeforeData, hread, hrm', hfq, hrb]
            · right
              exact ⟨h2, by simp [readingBeforeData, hread, hrm', hfq, hrb]⟩
          · have hfq' : strContainsSub "Freq" (sipReplaced l) = false := by simpa using hfq
            by_cases hdl : 1 < (pySplit (sipReplaced l)).length
            · rw [sipStep_none_data_fails s l hn hread hrm' hfq' hdl] at heq
              exact Except.noConfusion heq
            · have hdl' : ¬ 1 < (pySplit (sipReplaced l)).length := hdl
              rcases ih s1 s2 h hn1 with hrb | ⟨h2, hrb⟩
              · left
                simp [readingBeforeData, hread, hrm', hfq', hdl', hrb]
              · right
                exact ⟨h2, by simp [readingBeforeData, hread, hrm', hfq', hdl', hrb]⟩

/-- The final flush (line 383 evaluates `rdno`) requires a bound reading
number. -/
theorem sip256Finalize_rdno (s : SIPState)
    (out : List ReadingData × List (ℤ × ℤ) × List (List ℤ))
    (h : sip256Finalize s = .ok out) : s.rdno ≠ none := by
  intro hn
  rw [sip256Finalize, hn] at h
  exact Except.noConfusion h

/-- C10: a successful run of `readSIP256file` requires its data section to
contain a `Reading` line before any multi-field data row (otherwise the
unbound `rdno` raises NameError at line 361 or 383); a data section with a
data row and no `Reading` line fails with NameError instead of returning
empty DATA/AB/RU lists. -/
theorem c10_requires_reading :
    (∀ (lines : List String) (out : Header × List ReadingData × List (ℤ × ℤ) × List (List ℤ))
       (st : P1State),
      readSIP256file lines = .ok out → sip256Phase1 lines = .ok st →
      readingBeforeData st.LINE = true) ∧
    readSIP256file noReadingLines = .error .nameError := by
  constructor
  · intro lines out st hout hst
    unfold readSIP256file at hout
    split at hout
    · exact Except.noConfusion hout
    · next st' hphase =>
      have hsteq : st' = st := by
        have h2 := hphase.symm.trans hst
        simpa using h2
      subst hsteq
      split at hout
      · exact Except.noConfusion hout
      · next s hloop =>
        split at hout
        · exact Except.noConfusion hout
        · next o hfin =>
          have hne := sip256Finalize_rdno s o hfin
          rcases sipLoop_rdno_none st'.LINE sipInit s hloop rfl with hrb | ⟨h2, _⟩
          · exact hrb
          · exact absurd h2 hne
  · decide

/-- C10 witness: the successful concrete run `ruPendingLines` has a
`Reading` line before its data row. -/
theorem c10_requires_reading_wit :
    readingBeforeData ["Reading 1 # A 2 B 3\n", "Remote Unit 3 ok\n",
      "100.0 1.0 2.0 3.0 4.0 1 5.0 6.0 0 11:08:02 21/02/2019\n"] = true :=
  c10_requires_reading.1 ruPendingLines
    ([], [[[freqRowA]]], [(2, 3)], [])
    ⟨true, "", [], ["Reading 1 # A 2 B 3\n", "Remote Unit 3 ok\n",
      "100.0 1.0 2.0 3.0 4.0 1 5.0 6.0 0 11:08:02 21/02/2019\n"]⟩
    (by decide) (by decide)

end SIPData
